import Mathlib

/-!
Verification of the Blind-Stick-Server voice-to-navigation pipeline
(`app/services.py`, `app/routes.py`, `app/schemas.py`).

Strings are modelled as `List Char`; audio byte payloads as `List Nat`;
floating-point coordinates as `ℚ` (they are only carried through, never
computed with).  Python's `str.lower` is modelled on ASCII via
`Char.toLower`.  External Google services are oracles: a call either
returns a payload or faults (`Except Unit`), matching the `try/except`
blocks in `services.py`.
-/

/-- Python `\s` for the ASCII range: space, tab, newline, carriage return,
vertical tab, form feed (the set used by `str.strip` and `re` `\s`). -/
def pySpace (c : Char) : Bool :=
  c == ' ' || c == '\t' || c == '\n' || c == '\r' ||
  c == Char.ofNat 11 || c == Char.ofNat 12

/-- Drop the trailing run of characters satisfying `p`. -/
def dropTrailingWhile (p : Char → Bool) (l : List Char) : List Char :=
  (l.reverse.dropWhile p).reverse

/-- Python `str.strip()`: remove leading and trailing whitespace. -/
def pyStrip (l : List Char) : List Char :=
  dropTrailingWhile pySpace (l.dropWhile pySpace)

/-- Python `str.lower()` restricted to ASCII letters. -/
def pyLower (l : List Char) : List Char :=
  l.map Char.toLower

/-- The trailing-punctuation class `[?.!,]` of
`re.sub(r'[?.!,]+$', '', place)` in `extract_place_name`. -/
def navPunct (c : Char) : Bool :=
  c == '?' || c == '.' || c == '!' || c == ','

/-- Model of `re.sub(r'[?.!,]+$', '', place)`: remove the trailing run of
`? . ! ,` characters (captures contain no newline, so the `$`
before-final-newline subtlety never applies). -/
def stripTrailingPunct (l : List Char) : List Char :=
  dropTrailingWhile navPunct l

/-- The clean-up `place.strip()` followed by `re.sub(r'[?.!,]+$', '', place)` —
the clean-up applied to a captured remainder in `extract_place_name`. -/
def cleanPlace (l : List Char) : List Char :=
  stripTrailingPunct (pyStrip l)

/-- Greedy-with-backtracking tail of the regexes in `extract_place_name`:
after a phrase alternative matched, `\s+(.+)` must match `rest`.
`\s+` first consumes the maximal whitespace run (its length is the
initial `k`), then backtracks one character at a time; `(.+)` then
greedily captures every following character up to (not including) the
first newline (`.` does not match `\n`; `re.DOTALL` is not set). -/
def backtrackCapture (rest : List Char) : Nat → Option (List Char)
  | 0 => none
  | k + 1 =>
    match (rest.drop (k + 1)).head? with
    | some c =>
      if c == '\n' then backtrackCapture rest k
      else some ((rest.drop (k + 1)).takeWhile (fun d => d != '\n'))
    | none => backtrackCapture rest k

/-- Match `\s+(.+)` against `rest`, returning the captured group. -/
def matchSpacesRest (rest : List Char) : Option (List Char) :=
  backtrackCapture rest (rest.takeWhile pySpace).length

/-- At a fixed start position, try the phrase alternatives of one pattern
in order (regex alternation semantics): the phrase must be a literal
prefix here, followed by `\s+(.+)`; on failure of the tail the next
alternative is tried at the same position. -/
def tryPhrasesAt (phrases : List (List Char)) (s : List Char) : Option (List Char) :=
  match phrases with
  | [] => none
  | p :: ps =>
    if p.isPrefixOf s then
      match matchSpacesRest (s.drop p.length) with
      | some cap => some cap
      | none => tryPhrasesAt ps s
    else tryPhrasesAt ps s

/-- Model of `re.search` for one pattern `(?:p₁|p₂|…)\s+(.+)`: try each start
position from the left; at each position try the alternatives in order;
the first success wins (leftmost match). -/
def reSearch (phrases : List (List Char)) : List Char → Option (List Char)
  | [] => tryPhrasesAt phrases []
  | c :: t =>
    match tryPhrasesAt phrases (c :: t) with
    | some cap => some cap
    | none => reSearch phrases t

/-- First pattern of `extract_place_name`:
`(?:take me to|go to|navigate to|direction to|find|show me|where is)\s+(.+)`. -/
def patterns1 : List (List Char) :=
  ["take me to".toList, "go to".toList, "navigate to".toList,
   "direction to".toList, "find".toList, "show me".toList, "where is".toList]

/-- Second pattern: `(?:how do i get to|how to reach|route to)\s+(.+)`. -/
def patterns2 : List (List Char) :=
  ["how do i get to".toList, "how to reach".toList, "route to".toList]

/-- Third pattern: `(?:i want to go to|i need to go to)\s+(.+)`. -/
def patterns3 : List (List Char) :=
  ["i want to go to".toList, "i need to go to".toList]

/-- The `patterns` list of `extract_place_name`, in source order. -/
def patternGroups : List (List (List Char)) :=
  [patterns1, patterns2, patterns3]

/-- The `for pattern in patterns` loop of `extract_place_name`: the first
pattern whose search succeeds yields its cleaned capture. -/
def extractLoop : List (List (List Char)) → List Char → Option (List Char)
  | [], _ => none
  | g :: rest, tl =>
    match reSearch g tl with
    | some place => some (cleanPlace place)
    | none => extractLoop rest tl

/-- Model of `services.extract_place_name`: `None` on empty input; otherwise search
the patterns over the lowercased, stripped text and fall back to the
stripped original text when nothing matches. -/
def extract_place_name (text : List Char) : Option (List Char) :=
  if text.isEmpty then none
  else
    match extractLoop patternGroups (pyStrip (pyLower text)) with
    | some place => some place
    | none => some (pyStrip text)

/-- Python truthiness of an `Optional[str]`: `None` and the empty string
are falsy (the `if not transcript` / `if not place_name` /
`if not source_lang` checks). -/
def strTruthy : Option (List Char) → Bool
  | none => false
  | some s => !s.isEmpty

/-- The check `source_lang.lower().startswith("en")` guarded by truthiness, as in
`translate_to_english`. -/
def startsWithEn : Option (List Char) → Bool
  | none => false
  | some s => "en".toList.isPrefixOf (pyLower s)

/-- One result of the Speech-to-Text response (`response.results[i]`):
its alternatives' transcripts and its `language_code` (a plain string in
the protobuf, possibly empty). -/
structure RawSpeechResult where
  alternatives : List (List Char)
  language_code : List Char
deriving DecidableEq, Repr

/-- One result of the Geocoding API (`results[i]`): the
`geometry.location` coordinates and the optional `formatted_address`. -/
structure RawGeocodeResult where
  lat : ℚ
  lng : ℚ
  formatted_address : Option (List Char)
deriving DecidableEq, Repr

/-- One step of a Directions API leg (`leg['steps'][i]`). -/
structure RawStep where
  html_instructions : List Char
  distance_text : List Char
  duration_text : List Char
  maneuver : Option (List Char)
deriving DecidableEq, Repr

/-- One leg of a Directions API route (`route['legs'][i]`). -/
structure RawLeg where
  steps : List RawStep
  distance_text : List Char
  duration_text : List Char
deriving DecidableEq, Repr

/-- One route of a Directions API response (`result[i]`). -/
structure RawRoute where
  legs : List RawLeg
  overview_polyline : List Char
deriving DecidableEq, Repr

/-- The external Google services as oracles.  `.error ()` models a raised
exception inside the corresponding `try` block; the availability flags
model `GOOGLE_CLOUD_AVAILABLE` / `GOOGLE_MAPS_AVAILABLE`. -/
structure Gateways where
  cloudAvailable : Bool
  mapsAvailable : Bool
  speechCall : List Nat → Except Unit (List RawSpeechResult)
  detectLanguage : List Char → Except Unit (Option (List Char))
  translateCall : List Char → Option (List Char) → Except Unit (Option (List Char))
  geocodeCall : List Char → Except Unit (List RawGeocodeResult)
  directionsCall : ℚ → ℚ → ℚ → ℚ → Except Unit (List RawRoute)

/-- The comprehension `[r.alternatives[0].transcript for r in results]`: `alternatives[0]`
raises `IndexError` (caught by the enclosing `except`) when empty. -/
def firstAlternatives : List RawSpeechResult → Option (List (List Char))
  | [] => some []
  | r :: rs =>
    match r.alternatives.head? with
    | none => none
    | some t =>
      match firstAlternatives rs with
      | none => none
      | some ts => some (t :: ts)

/-- Model of `services.transcribe_audio`: returns
`(transcript, detected_language_code)` or `(none, none)` when the client
is unavailable, the call raises, or there are no results. -/
def transcribe_audio (g : Gateways) (audio_content : List Nat) :
    Option (List Char) × Option (List Char) :=
  if !g.cloudAvailable then (none, none)
  else
    match g.speechCall audio_content with
    | .error _ => (none, none)
    | .ok results =>
      match results with
      | [] => (none, none)
      | r0 :: _ =>
        match firstAlternatives results with
        | none => (none, none)
        | some ts => (some (List.intercalate [' '] ts), some r0.language_code)

/-- The `try` block of `services.translate_to_english`: detect the source
language when `source_lang` is falsy, skip translation when it starts
with `en`, otherwise call the translation service (whose response
dictionary may lack `translatedText`, defaulting to the input). -/
def tryTranslate (g : Gateways) (text : List Char) (source_lang : Option (List Char)) :
    Except Unit (List Char × Option (List Char)) :=
  (if strTruthy source_lang then Except.ok source_lang else g.detectLanguage text).bind
    (fun src =>
      if strTruthy src && startsWithEn src then Except.ok (text, src)
      else (g.translateCall text src).bind (fun tr => Except.ok (tr.getD text, src)))

/-- Model of `services.translate_to_english`: `(text, none)` when the cloud client
is unavailable or the `try` block raises; otherwise the block's result. -/
def translate_to_english (g : Gateways) (text : List Char) (source_lang : Option (List Char)) :
    List Char × Option (List Char) :=
  if !g.cloudAvailable then (text, none)
  else
    match tryTranslate g text source_lang with
    | .ok r => r
    | .error _ => (text, none)

/-- The dictionary returned by `services.geocode_place`. -/
structure GeocodeResult where
  lat : ℚ
  lng : ℚ
  formatted_address : List Char
deriving DecidableEq, Repr

/-- Model of `services.geocode_place`: `none` when the maps client is unavailable,
the place name is empty, the call raises, or there is no result;
otherwise the first result with `formatted_address` defaulting to the
queried place name. -/
def geocode_place (g : Gateways) (place_name : List Char) (gmaps_api_key : List Char) :
    Option GeocodeResult :=
  if !g.mapsAvailable || place_name.isEmpty then none
  else
    match g.geocodeCall place_name with
    | .error _ => none
    | .ok [] => none
    | .ok (r :: _) =>
      some { lat := r.lat, lng := r.lng,
             formatted_address := r.formatted_address.getD place_name }

/-- Model of `schemas.NavigationStep` (also the shape of the step dictionaries
built by `services.get_directions`). -/
structure NavigationStep where
  instruction : List Char
  distance : List Char
  duration : List Char
  maneuver : Option (List Char) := none
deriving DecidableEq, Repr

/-- The dictionary returned by `services.get_directions`. -/
structure DirectionsResult where
  polyline : List Char
  distance : List Char
  duration : List Char
  steps : List NavigationStep
deriving DecidableEq, Repr

/-- The step-dictionary construction in `services.get_directions`. -/
def stepOfRaw (s : RawStep) : NavigationStep :=
  { instruction := s.html_instructions, distance := s.distance_text,
    duration := s.duration_text, maneuver := s.maneuver }

/-- Model of `services.get_directions`: `none` when the maps client is unavailable,
the call raises, there is no route, or `route['legs'][0]` raises (caught
`IndexError`); otherwise the first route's first leg, with its steps
mapped in order. -/
def get_directions (g : Gateways) (origin_lat origin_lng dest_lat dest_lng : ℚ) :
    Option DirectionsResult :=
  if !g.mapsAvailable then none
  else
    match g.directionsCall origin_lat origin_lng dest_lat dest_lng with
    | .error _ => none
    | .ok [] => none
    | .ok (route :: _) =>
      match route.legs with
      | [] => none
      | leg :: _ =>
        some { polyline := route.overview_polyline,
               distance := leg.distance_text,
               duration := leg.duration_text,
               steps := leg.steps.map stepOfRaw }

/-- Model of `models.NavigationRequest`: the persisted row (one per successful
navigation attempt). -/
structure NavigationRequestRecord where
  id : Nat
  device_id : List Char
  origin_lat : ℚ
  origin_lng : ℚ
  heading : Option ℚ
  transcript : Option (List Char)
  detected_language : Option (List Char)
  translated_text : Option (List Char)
  destination_place : Option (List Char)
  destination_lat : Option ℚ
  destination_lng : Option ℚ
  audio_path : Option (List Char)
deriving DecidableEq, Repr

/-- Model of `services.store_navigation_request`: append one row; the database
assigns the next (monotonically increasing) integer id. -/
def store_navigation_request (store : List NavigationRequestRecord)
    (device_id : List Char) (origin_lat origin_lng : ℚ) (heading : Option ℚ)
    (transcript detected_language translated_text destination_place : Option (List Char))
    (destination_lat destination_lng : Option ℚ) (audio_path : Option (List Char)) :
    NavigationRequestRecord × List NavigationRequestRecord :=
  let req : NavigationRequestRecord :=
    { id := store.length + 1, device_id := device_id,
      origin_lat := origin_lat, origin_lng := origin_lng, heading := heading,
      transcript := transcript, detected_language := detected_language,
      translated_text := translated_text, destination_place := destination_place,
      destination_lat := destination_lat, destination_lng := destination_lng,
      audio_path := audio_path }
  (req, store ++ [req])

/-- Model of `schemas.NavigationResponse`: the payload returned to the device. -/
structure NavigationResponse where
  success : Bool
  request_id : Nat
  transcript : Option (List Char) := none
  detected_language : Option (List Char) := none
  destination_place : Option (List Char) := none
  destination_lat : Option ℚ := none
  destination_lng : Option ℚ := none
  distance_text : Option (List Char) := none
  duration_text : Option (List Char) := none
  overview_polyline : Option (List Char) := none
  steps : List NavigationStep := []
  error : Option (List Char) := none
deriving DecidableEq, Repr

/-- Server-side state touched by the navigation endpoint: the
`navigation_requests` table and the `web/uploads` directory. -/
structure NavState where
  store : List NavigationRequestRecord
  uploads : List (List Char × List Nat)
deriving DecidableEq, Repr

/-- Model of `services.save_audio_file`: write the bytes under the uploads
directory and return the relative path. -/
def save_audio_file (st : NavState) (content : List Nat) (filename : List Char) :
    List Char × NavState :=
  ("web/uploads/".toList ++ filename,
   { st with uploads := st.uploads ++ [(filename, content)] })

/-- The `nav_{device_id}_{int(time.time())}.webm` filename built in
`routes.navigate` (`now` models `int(time.time())`). -/
def navFilename (device_id : List Char) (now : Nat) : List Char :=
  "nav_".toList ++ device_id ++ "_".toList ++ (toString now).toList ++ ".webm".toList

/-- Server configuration: `API_KEY` (from `config.py`) and the
`GOOGLE_MAPS_API_KEY` environment variable read in `routes.navigate`. -/
structure ServerConfig where
  api_key : List Char
  gmaps_api_key : Option (List Char)

/-- Instrumentation: the externally observable operations of one
`navigate` call, in execution order. -/
inductive NavEvent where
  | saveAudio
  | transcribe
  | translate
  | extractPlace
  | geocode
  | directions
  | persist
deriving DecidableEq, Repr

/-- Model of `routes.navigate`: the voice-based navigation endpoint.
`.error 401` models the `HTTPException` raised by `_auth_or_401`; every
other outcome is a well-formed `NavigationResponse` together with the
updated server state and the trace of operations performed. -/
def navigate (cfg : ServerConfig) (g : Gateways)
    (device_id : List Char) (lat lng : ℚ) (heading : Option ℚ)
    (audio : List Nat) (x_api_key : Option (List Char)) (now : Nat)
    (st : NavState) :
    Except Nat (NavigationResponse × NavState × List NavEvent) :=
  if x_api_key ≠ some cfg.api_key then .error 401
  else
    match cfg.gmaps_api_key with
    | none =>
      .ok ({ success := false, request_id := 0,
             error := some "Google Maps API key not configured. Set GOOGLE_MAPS_API_KEY in .env".toList },
           st, [])
    | some gmaps_api_key =>
      let audio_filename := navFilename device_id now
      let saved := save_audio_file st audio audio_filename
      let audio_path := saved.1
      let st1 := saved.2
      let transcribed := transcribe_audio g audio
      if !strTruthy transcribed.1 then
        .ok ({ success := false, request_id := 0,
               error := some "Could not transcribe audio. Ensure Google Cloud Speech-to-Text is configured.".toList },
             st1, [.saveAudio, .transcribe])
      else
        let transcript := transcribed.1.getD []
        let translated := translate_to_english g transcript transcribed.2
        let translated_text := translated.1
        let source_lang := translated.2
        let place? := extract_place_name translated_text
        if !strTruthy place? then
          .ok ({ success := false, request_id := 0,
                 transcript := some transcript, detected_language := source_lang,
                 error := some "Could not extract destination place from speech.".toList },
               st1, [.saveAudio, .transcribe, .translate, .extractPlace])
        else
          let place_name := place?.getD []
          match geocode_place g place_name gmaps_api_key with
          | none =>
            .ok ({ success := false, request_id := 0,
                   transcript := some transcript, detected_language := source_lang,
                   destination_place := some place_name,
                   error := some ("Could not find location for: ".toList ++ place_name) },
                 st1, [.saveAudio, .transcribe, .translate, .extractPlace, .geocode])
          | some geo =>
            match get_directions g lat lng geo.lat geo.lng with
            | none =>
              .ok ({ success := false, request_id := 0,
                     transcript := some transcript, detected_language := source_lang,
                     destination_place := some geo.formatted_address,
                     destination_lat := some geo.lat, destination_lng := some geo.lng,
                     error := some "Could not retrieve directions.".toList },
                   st1, [.saveAudio, .transcribe, .translate, .extractPlace, .geocode, .directions])
            | some dirs =>
              let stored := store_navigation_request st1.store device_id lat lng heading
                (some transcript) source_lang (some translated_text)
                (some geo.formatted_address) (some geo.lat) (some geo.lng)
                (some audio_path)
              let st2 : NavState := { st1 with store := stored.2 }
              let steps := dirs.steps.map (fun s =>
                ({ instruction := s.instruction, distance := s.distance,
                   duration := s.duration, maneuver := s.maneuver } : NavigationStep))
              .ok ({ success := true, request_id := stored.1.id,
                     transcript := some transcript, detected_language := source_lang,
                     destination_place := some geo.formatted_address,
                     destination_lat := some geo.lat, destination_lng := some geo.lng,
                     distance_text := some dirs.distance, duration_text := some dirs.duration,
                     overview_polyline := some dirs.polyline, steps := steps },
                   st2,
                   [.saveAudio, .transcribe, .translate, .extractPlace, .geocode, .directions, .persist])

/-- The range validation declared on `schemas.GPSIn`
(`lat ∈ [-90, 90]`, `lon ∈ [-180, 180]`). -/
def gpsInValid (lat lon : ℚ) : Bool :=
  (-90 ≤ lat && lat ≤ 90) && (-180 ≤ lon && lon ≤ 180)

/-- The admission gate of `routes.receive_gps`: the framework rejects a
body violating the `GPSIn` field constraints with 422 before the handler
runs; the handler then rejects a bad credential with 401 (persistence of
the point is elided — no claim concerns it). -/
def receive_gps (cfg : ServerConfig) (lat lon : ℚ) (x_api_key : Option (List Char)) :
    Except Nat Unit :=
  if !gpsInValid lat lon then .error 422
  else if x_api_key ≠ some cfg.api_key then .error 401
  else .ok ()

/-- A concrete configuration (default `API_KEY` with a maps key set). -/
def demoCfg : ServerConfig :=
  { api_key := "change-me".toList, gmaps_api_key := some "gmaps-key".toList }

/-- First raw step of the concrete demo route. -/
def demoRawStep1 : RawStep :=
  { html_instructions := "Head north".toList, distance_text := "500 m".toList,
    duration_text := "6 mins".toList, maneuver := none }

/-- Second raw step of the concrete demo route. -/
def demoRawStep2 : RawStep :=
  { html_instructions := "Turn left".toList, distance_text := "700 m".toList,
    duration_text := "9 mins".toList, maneuver := some "turn-left".toList }

/-- The single leg of the concrete demo route. -/
def demoLeg : RawLeg :=
  { steps := [demoRawStep1, demoRawStep2],
    distance_text := "1.2 km".toList, duration_text := "15 mins".toList }

/-- A concrete two-step walking route, as returned by the Directions API. -/
def demoRoute : RawRoute :=
  { legs := [demoLeg], overview_polyline := "abc123".toList }

/-- Gateways for a fully successful English request. -/
def demoGateways : Gateways :=
  { cloudAvailable := true, mapsAvailable := true,
    speechCall := fun _ =>
      .ok [{ alternatives := ["take me to Dhaka University".toList],
             language_code := "en".toList }],
    detectLanguage := fun _ => .ok (some "en".toList),
    translateCall := fun t _ => .ok (some t),
    geocodeCall := fun _ =>
      .ok [{ lat := 23, lng := 90,
             formatted_address := some "Dhaka University, Dhaka".toList }],
    directionsCall := fun _ _ _ _ => .ok [demoRoute] }

/-- Empty server state. -/
def demoSt : NavState := { store := [], uploads := [] }

/-- A fully successful concrete run of the endpoint. -/
def demoRun : Except Nat (NavigationResponse × NavState × List NavEvent) :=
  navigate demoCfg demoGateways "esp32-1".toList 23 90 (some 45) [1, 2, 3]
    (some "change-me".toList) 111 demoSt

/-- Response of `demoRun`. -/
def demoResp : NavigationResponse :=
  match demoRun with
  | .ok (r, _, _) => r
  | .error _ => { success := false, request_id := 0 }

/-- State after `demoRun`. -/
def demoStAfter : NavState :=
  match demoRun with
  | .ok (_, s, _) => s
  | .error _ => demoSt

/-- Trace of `demoRun`. -/
def demoTrace : List NavEvent :=
  match demoRun with
  | .ok (_, _, t) => t
  | .error _ => []

/-- Gateways where geocoding finds nothing for the spoken place. -/
def geoFailGateways : Gateways :=
  { demoGateways with
    speechCall := fun _ =>
      .ok [{ alternatives := ["take me to xyzzy123".toList],
             language_code := "en".toList }],
    geocodeCall := fun _ => .ok [] }

/-- A concrete run failing at the geocoding stage. -/
def geoFailRun : Except Nat (NavigationResponse × NavState × List NavEvent) :=
  navigate demoCfg geoFailGateways "esp32-1".toList 23 90 none [1, 2, 3]
    (some "change-me".toList) 111 demoSt

/-- Response of `geoFailRun`. -/
def geoFailResp : NavigationResponse :=
  match geoFailRun with
  | .ok (r, _, _) => r
  | .error _ => { success := false, request_id := 0 }

/-- Gateways whose translation service raises on every call while the
other services succeed (non-English request). -/
def translateFaultGateways : Gateways :=
  { demoGateways with
    speechCall := fun _ =>
      .ok [{ alternatives := ["take me to Dhaka University".toList],
             language_code := "bn".toList }],
    detectLanguage := fun _ => .error (),
    translateCall := fun _ _ => .error () }

/-- A concrete run whose origin latitude 200 is far outside `[-90, 90]`. -/
def outOfRangeRun : Except Nat (NavigationResponse × NavState × List NavEvent) :=
  navigate demoCfg demoGateways "esp32-1".toList 200 500 none [1, 2, 3]
    (some "change-me".toList) 111 demoSt

/-- Response of `outOfRangeRun`. -/
def outOfRangeResp : NavigationResponse :=
  match outOfRangeRun with
  | .ok (r, _, _) => r
  | .error _ => { success := false, request_id := 0 }

/-- Unpacking `get_directions g … = some dirs`: the gateway returned at
least one route whose first leg's steps are mapped in order. -/
lemma get_directions_eq_some (g : Gateways) (o1 o2 d1 d2 : ℚ) (dirs : DirectionsResult)
    (h : get_directions g o1 o2 d1 d2 = some dirs) :
    ∃ route rest leg legs, g.directionsCall o1 o2 d1 d2 = .ok (route :: rest) ∧
      route.legs = leg :: legs ∧ dirs.steps = leg.steps.map stepOfRaw := by
  simp only [get_directions] at h
  split at h
  · exact absurd h (by simp)
  · split at h
    · exact absurd h (by simp)
    · exact absurd h (by simp)
    · rename_i route rst heq
      split at h
      · exact absurd h (by simp)
      · rename_i leg legs hlegs
        refine ⟨route, rst, leg, legs, heq, hlegs, ?_⟩
        simp only [Option.some.injEq] at h
        subst h
        rfl

/-- Branch analysis of a completed `navigate` call: on failure nothing is
persisted, the id is 0, the steps are empty and a non-empty error is set;
on success the error is absent, exactly one record is appended, its id is
echoed, and the steps come from the directions result. -/
lemma navigate_shape (cfg : ServerConfig) (g : Gateways) (device_id : List Char)
    (lat lng : ℚ) (heading : Option ℚ) (audio : List Nat)
    (x_api_key : Option (List Char)) (now : Nat) (st : NavState)
    (resp : NavigationResponse) (st' : NavState) (tr : List NavEvent)
    (hrun : navigate cfg g device_id lat lng heading audio x_api_key now st =
      .ok (resp, st', tr)) :
    (resp.success = false → resp.request_id = 0 ∧ st'.store = st.store ∧
      resp.steps = [] ∧ ∃ e, resp.error = some e ∧ e ≠ []) ∧
    (resp.success = true → resp.error = none ∧
      ∃ rec dest_lat dest_lng dirs,
        st'.store = st.store ++ [rec] ∧ resp.request_id = rec.id ∧
        rec.id = st.store.length + 1 ∧
        get_directions g lat lng dest_lat dest_lng = some dirs ∧
        resp.steps = dirs.steps.map (fun s =>
          ({ instruction := s.instruction, distance := s.distance,
             duration := s.duration, maneuver := s.maneuver } : NavigationStep))) := by
  simp only [navigate] at hrun
  split at hrun
  · exact absurd hrun (by simp)
  · split at hrun
    · simp only [Except.ok.injEq, Prod.mk.injEq] at hrun
      obtain ⟨h1, h2, h3⟩ := hrun
      subst h1 h2 h3
      constructor
      · intro _
        exact ⟨rfl, rfl, rfl, _, rfl, by simp⟩
      · intro h
        exact absurd h (by simp)
    · split at hrun
      · simp only [Except.ok.injEq, Prod.mk.injEq] at hrun
        obtain ⟨h1, h2, h3⟩ := hrun
        subst h1 h2 h3
        constructor
        · intro _
          exact ⟨rfl, by simp [save_audio_file], rfl, _, rfl, by simp⟩
        · intro h
          exact absurd h (by simp)
      · split at hrun
        · simp only [Except.ok.injEq, Prod.mk.injEq] at hrun
          obtain ⟨h1, h2, h3⟩ := hrun
          subst h1 h2 h3
          constructor
          · intro _
            exact ⟨rfl, by simp [save_audio_file], rfl, _, rfl, by simp⟩
          · intro h
            exact absurd h (by simp)
        · split at hrun
          · simp only [Except.ok.injEq, Prod.mk.injEq] at hrun
            obtain ⟨h1, h2, h3⟩ := hrun
            subst h1 h2 h3
            constructor
            · intro _
              exact ⟨rfl, by simp [save_audio_file], rfl, _, rfl, by simp⟩
            · intro h
              exact absurd h (by simp)
          · rename_i geo hgeo
            split at hrun
            · simp only [Except.ok.injEq, Prod.mk.injEq] at hrun
              obtain ⟨h1, h2, h3⟩ := hrun
              subst h1 h2 h3
              constructor
              · intro _
                exact ⟨rfl, by simp [save_audio_file], rfl, _, rfl, by simp⟩
              · intro h
                exact absurd h (by simp)
            · rename_i dirs hdirs
              simp only [Except.ok.injEq, Prod.mk.injEq] at hrun
              obtain ⟨h1, h2, h3⟩ := hrun
              subst h1 h2 h3
              constructor
              · intro h
                exact absurd h (by simp)
              · intro _
                refine ⟨rfl, _, geo.lat, geo.lng, dirs, ?_, rfl, ?_, hdirs, rfl⟩
                · simp [store_navigation_request, save_audio_file]
                · simp [store_navigation_request, save_audio_file]


/-- C1: For every navigation request handled by the navigate endpoint, the
returned NavigationResponse satisfies: if success is false then error is
non-empty and steps is empty; if success is true then error is empty and
steps is non-empty whenever the Directions Gateway returned a route.  The
hypothesis `hroutes` is the Directions Gateway contract (a returned route
carries an ordered, non-empty list of maneuver steps per leg). -/
theorem navigate_success_error_steps_invariant
    (cfg : ServerConfig) (g : Gateways) (device_id : List Char) (lat lng : ℚ)
    (heading : Option ℚ) (audio : List Nat) (x_api_key : Option (List Char))
    (now : Nat) (st : NavState) (resp : NavigationResponse) (st' : NavState)
    (tr : List NavEvent)
    (hrun : navigate cfg g device_id lat lng heading audio x_api_key now st =
      .ok (resp, st', tr))
    (hroutes : ∀ o1 o2 d1 d2 rs, g.directionsCall o1 o2 d1 d2 = .ok rs →
      ∀ r ∈ rs, ∀ leg ∈ r.legs, leg.steps ≠ []) :
    (resp.success = false → (∃ e, resp.error = some e ∧ e ≠ []) ∧ resp.steps = []) ∧
    (resp.success = true → resp.error = none ∧ resp.steps ≠ []) := by
  obtain ⟨hfail, hsucc⟩ :=
    navigate_shape cfg g device_id lat lng heading audio x_api_key now st resp st' tr hrun
  constructor
  · intro h
    obtain ⟨_, _, hsteps, herr⟩ := hfail h
    exact ⟨herr, hsteps⟩
  · intro h
    obtain ⟨herr, rec, dlat, dlng, dirs, _, _, _, hdir, hsteps⟩ := hsucc h
    refine ⟨herr, ?_⟩
    obtain ⟨route, rest, leg, legs, hcall, hlegs, hsteps'⟩ :=
      get_directions_eq_some g lat lng dlat dlng dirs hdir
    have hne : leg.steps ≠ [] :=
      hroutes lat lng dlat dlng (route :: rest) hcall route (by simp) leg
        (by rw [hlegs]; simp)
    rw [hsteps, hsteps']
    simp only [ne_eq, List.map_eq_nil_iff]
    exact hne

/-- C1 witness: the invariant instantiated on a fully successful run. -/
theorem navigate_success_error_steps_invariant_witness :
    (demoResp.success = false →
      (∃ e, demoResp.error = some e ∧ e ≠ []) ∧ demoResp.steps = []) ∧
    (demoResp.success = true → demoResp.error = none ∧ demoResp.steps ≠ []) :=
  navigate_success_error_steps_invariant demoCfg demoGateways "esp32-1".toList
    23 90 (some 45) [1, 2, 3] (some "change-me".toList) 111 demoSt
    demoResp demoStAfter demoTrace rfl
    (by
      intro o1 o2 d1 d2 rs h r hr leg hleg
      injection h with h'
      subst h'
      simp only [List.mem_singleton] at hr
      subst hr
      simp only [demoRoute, List.mem_singleton] at hleg
      subst hleg
      simp [demoLeg])

/-- C2: a failed pipeline returns request id 0 and persists nothing; a
record is appended exactly on success, and the response echoes the
persisted record's (monotonically assigned) identifier. -/
theorem navigate_persists_only_on_success
    (cfg : ServerConfig) (g : Gateways) (device_id : List Char) (lat lng : ℚ)
    (heading : Option ℚ) (audio : List Nat) (x_api_key : Option (List Char))
    (now : Nat) (st : NavState) (resp : NavigationResponse) (st' : NavState)
    (tr : List NavEvent)
    (hrun : navigate cfg g device_id lat lng heading audio x_api_key now st =
      .ok (resp, st', tr)) :
    (resp.success = false → resp.request_id = 0 ∧ st'.store = st.store) ∧
    (resp.success = true → ∃ rec, st'.store = st.store ++ [rec] ∧
      resp.request_id = rec.id ∧ rec.id = st.store.length + 1) ∧
    (st'.store ≠ st.store → resp.success = true) := by
  obtain ⟨hfail, hsucc⟩ :=
    navigate_shape cfg g device_id lat lng heading audio x_api_key now st resp st' tr hrun
  refine ⟨?_, ?_, ?_⟩
  · intro h
    obtain ⟨h1, h2, _, _⟩ := hfail h
    exact ⟨h1, h2⟩
  · intro h
    obtain ⟨_, rec, _, _, _, hst, hid, hid', _, _⟩ := hsucc h
    exact ⟨rec, hst, hid, hid'⟩
  · intro h
    cases hb : resp.success with
    | false => exact absurd (hfail hb).2.1 h
    | true => rfl

/-- C2 witness: instantiated on a fully successful run (one record is
appended and its id is echoed). -/
theorem navigate_persists_only_on_success_witness :
    (demoResp.success = false → demoResp.request_id = 0 ∧ demoStAfter.store = demoSt.store) ∧
    (demoResp.success = true → ∃ rec, demoStAfter.store = demoSt.store ++ [rec] ∧
      demoResp.request_id = rec.id ∧ rec.id = demoSt.store.length + 1) ∧
    (demoStAfter.store ≠ demoSt.store → demoResp.success = true) :=
  navigate_persists_only_on_success demoCfg demoGateways "esp32-1".toList
    23 90 (some 45) [1, 2, 3] (some "change-me".toList) 111 demoSt
    demoResp demoStAfter demoTrace rfl

/-- C3: on success the outward steps are exactly the first leg's steps of
the route returned by the Directions Gateway, in traversal order, with
identical instruction, distance and duration text (and maneuver tag). -/
theorem navigate_preserves_route_steps
    (cfg : ServerConfig) (g : Gateways) (device_id : List Char) (lat lng : ℚ)
    (heading : Option ℚ) (audio : List Nat) (x_api_key : Option (List Char))
    (now : Nat) (st : NavState) (resp : NavigationResponse) (st' : NavState)
    (tr : List NavEvent)
    (hrun : navigate cfg g device_id lat lng heading audio x_api_key now st =
      .ok (resp, st', tr))
    (hsuccess : resp.success = true) :
    ∃ dest_lat dest_lng route rest leg legs,
      g.directionsCall lat lng dest_lat dest_lng = .ok (route :: rest) ∧
      route.legs = leg :: legs ∧
      resp.steps.length = leg.steps.length ∧
      resp.steps = leg.steps.map (fun s =>
        ({ instruction := s.html_instructions, distance := s.distance_text,
           duration := s.duration_text, maneuver := s.maneuver } : NavigationStep)) := by
  obtain ⟨_, hsucc⟩ :=
    navigate_shape cfg g device_id lat lng heading audio x_api_key now st resp st' tr hrun
  obtain ⟨_, rec, dlat, dlng, dirs, _, _, _, hdir, hsteps⟩ := hsucc hsuccess
  obtain ⟨route, rest, leg, legs, hcall, hlegs, hsteps'⟩ :=
    get_directions_eq_some g lat lng dlat dlng dirs hdir
  refine ⟨dlat, dlng, route, rest, leg, legs, hcall, hlegs, ?_, ?_⟩
  · rw [hsteps, hsteps']
    simp
  · rw [hsteps, hsteps']
    simp only [List.map_map]
    rfl

/-- C3 witness: instantiated on the successful two-step demo run. -/
theorem navigate_preserves_route_steps_witness :
    ∃ dest_lat dest_lng route rest leg legs,
      demoGateways.directionsCall 23 90 dest_lat dest_lng = .ok (route :: rest) ∧
      route.legs = leg :: legs ∧
      demoResp.steps.length = leg.steps.length ∧
      demoResp.steps = leg.steps.map (fun s =>
        ({ instruction := s.html_instructions, distance := s.distance_text,
           duration := s.duration_text, maneuver := s.maneuver } : NavigationStep)) :=
  navigate_preserves_route_steps demoCfg demoGateways "esp32-1".toList
    23 90 (some 45) [1, 2, 3] (some "change-me".toList) 111 demoSt
    demoResp demoStAfter demoTrace rfl (by decide)

/-- Every authenticated `navigate` call with a configured maps key saves
the audio file first, then attempts transcription; the upload persists in
every outcome, while the database row is withheld on failure. -/
lemma navigate_runs (cfg : ServerConfig) (g : Gateways) (device_id : List Char)
    (lat lng : ℚ) (heading : Option ℚ) (audio : List Nat) (now : Nat)
    (st : NavState) (gk : List Char) (hkey : cfg.gmaps_api_key = some gk) :
    ∃ resp st' rest,
      navigate cfg g device_id lat lng heading audio (some cfg.api_key) now st =
        .ok (resp, st', NavEvent.saveAudio :: NavEvent.transcribe :: rest) ∧
      st'.uploads = st.uploads ++ [(navFilename device_id now, audio)] ∧
      (resp.success = false → st'.store = st.store) := by
  simp only [navigate, hkey, ne_eq, not_true_eq_false, if_false, reduceIte]
  split
  · exact ⟨_, _, [], rfl, by simp [save_audio_file], fun _ => by simp [save_audio_file]⟩
  · split
    · exact ⟨_, _, [NavEvent.translate, NavEvent.extractPlace], rfl,
        by simp [save_audio_file], fun _ => by simp [save_audio_file]⟩
    · split
      · exact ⟨_, _, [NavEvent.translate, NavEvent.extractPlace, NavEvent.geocode], rfl,
          by simp [save_audio_file], fun _ => by simp [save_audio_file]⟩
      · split
        · exact ⟨_, _,
            [NavEvent.translate, NavEvent.extractPlace, NavEvent.geocode, NavEvent.directions],
            rfl, by simp [save_audio_file], fun _ => by simp [save_audio_file]⟩
        · refine ⟨_, _,
            [NavEvent.translate, NavEvent.extractPlace, NavEvent.geocode,
             NavEvent.directions, NavEvent.persist],
            rfl, by simp [save_audio_file, store_navigation_request], ?_⟩
          intro h
          exact absurd h (by simp)

/-- C9 counterexample: a navigate request with origin latitude 200 and
longitude 500 — far outside the `GPSIn` bounds — is not rejected by any
input validation: the pipeline runs to completion and even succeeds.
The claim asserts such a request is rejected before any pipeline stage. -/
theorem navigate_out_of_range_counterexample :
    gpsInValid 200 500 = false ∧ outOfRangeResp.success = true := by
  constructor
  · decide
  · rfl

/-- C9 (amended): origin-coordinate range validation exists only on the
GPS ingestion endpoint (`receive_gps`, via the `GPSIn` schema bounds);
the `navigate` endpoint accepts arbitrary origin coordinates and still
attempts the pipeline (audio saved, transcription called). -/
theorem coordinate_validation_only_on_ingest
    (cfg : ServerConfig) (g : Gateways) (device_id : List Char)
    (lat lon lng : ℚ) (heading : Option ℚ) (audio : List Nat) (now : Nat)
    (st : NavState) (gk : List Char)
    (hbad : gpsInValid lat lon = false) (hkey : cfg.gmaps_api_key = some gk) :
    receive_gps cfg lat lon (some cfg.api_key) = .error 422 ∧
    ∃ resp st' rest,
      navigate cfg g device_id lat lng heading audio (some cfg.api_key) now st =
        .ok (resp, st', NavEvent.saveAudio :: NavEvent.transcribe :: rest) := by
  constructor
  · simp [receive_gps, hbad]
  · obtain ⟨resp, st', rest, h, _, _⟩ :=
      navigate_runs cfg g device_id lat lng heading audio now st gk hkey
    exact ⟨resp, st', rest, h⟩

/-- C9 witness: instantiated at latitude 200 / longitude 500. -/
theorem coordinate_validation_only_on_ingest_witness :
    receive_gps demoCfg 200 500 (some demoCfg.api_key) = .error 422 ∧
    ∃ resp st' rest,
      navigate demoCfg demoGateways "esp32-1".toList 200 90 none [1, 2, 3]
          (some demoCfg.api_key) 111 demoSt =
        .ok (resp, st', NavEvent.saveAudio :: NavEvent.transcribe :: rest) :=
  coordinate_validation_only_on_ingest demoCfg demoGateways "esp32-1".toList
    200 500 90 none [1, 2, 3] 111 demoSt "gmaps-key".toList (by decide) rfl

/-- C10: once authentication and the routing-credential check pass, the
audio payload is saved to the uploads directory before transcription is
attempted, and the upload remains in place whatever happens later; on a
failed pipeline only the database record is withheld. -/
theorem navigate_saves_audio_before_transcription
    (cfg : ServerConfig) (g : Gateways) (device_id : List Char) (lat lng : ℚ)
    (heading : Option ℚ) (audio : List Nat) (now : Nat) (st : NavState)
    (gk : List Char) (hkey : cfg.gmaps_api_key = some gk) :
    ∃ resp st' rest,
      navigate cfg g device_id lat lng heading audio (some cfg.api_key) now st =
        .ok (resp, st', NavEvent.saveAudio :: NavEvent.transcribe :: rest) ∧
      st'.uploads = st.uploads ++ [(navFilename device_id now, audio)] ∧
      (resp.success = false → st'.store = st.store) :=
  navigate_runs cfg g device_id lat lng heading audio now st gk hkey

/-- C10 witness: instantiated on a run that fails at geocoding — the
audio upload is still recorded while the store stays empty. -/
theorem navigate_saves_audio_before_transcription_witness :
    ∃ resp st' rest,
      navigate demoCfg geoFailGateways "esp32-1".toList 23 90 none [1, 2, 3]
          (some demoCfg.api_key) 111 demoSt =
        .ok (resp, st', NavEvent.saveAudio :: NavEvent.transcribe :: rest) ∧
      st'.uploads = demoSt.uploads ++ [(navFilename "esp32-1".toList 111, [1, 2, 3])] ∧
      (resp.success = false → st'.store = demoSt.store) :=
  navigate_saves_audio_before_transcription demoCfg geoFailGateways
    "esp32-1".toList 23 90 none [1, 2, 3] 111 demoSt "gmaps-key".toList rfl

/-- C4: a fault raised inside the translation stage never terminates the
pipeline: `translate_to_english` falls back to the original transcript
with an unknown (absent) source language, and `navigate` proceeds to the
extraction stage, reporting `detected_language = none` and the original
transcript in the outcome. -/
theorem translation_fault_is_soft
    (cfg : ServerConfig) (g : Gateways) (device_id : List Char) (lat lng : ℚ)
    (heading : Option ℚ) (audio : List Nat) (now : Nat) (st : NavState)
    (gk t : List Char) (dl : Option (List Char))
    (hkey : cfg.gmaps_api_key = some gk)
    (htrans : transcribe_audio g audio = (some t, dl))
    (ht : t ≠ [])
    (hfault : tryTranslate g t dl = .error ()) :
    translate_to_english g t dl = (t, none) ∧
    ∃ resp st' rest,
      navigate cfg g device_id lat lng heading audio (some cfg.api_key) now st =
        .ok (resp, st',
          NavEvent.saveAudio :: NavEvent.transcribe :: NavEvent.translate ::
            NavEvent.extractPlace :: rest) ∧
      resp.transcript = some t ∧ resp.detected_language = none := by
  have hcloud : g.cloudAvailable = true := by
    by_cases hc : g.cloudAvailable = true
    · exact hc
    · rw [Bool.not_eq_true] at hc
      simp [transcribe_audio, hc] at htrans
  have hst : strTruthy (some t) = true := by
    cases t with
    | nil => exact absurd rfl ht
    | cons c cs => rfl
  have h1 : translate_to_english g t dl = (t, none) := by
    simp [translate_to_english, hcloud, hfault]
  refine ⟨h1, ?_⟩
  simp only [navigate, hkey, ne_eq, not_true_eq_false, if_false, reduceIte]
  split
  · rename_i hcond
    rw [htrans] at hcond
    simp [hst] at hcond
  · split
    · refine ⟨_, _, [], rfl, ?_, ?_⟩ <;> simp [htrans, h1]
    · split
      · refine ⟨_, _, [NavEvent.geocode], rfl, ?_, ?_⟩ <;> simp [htrans, h1]
      · split
        · refine ⟨_, _, [NavEvent.geocode, NavEvent.directions], rfl, ?_, ?_⟩ <;>
            simp [htrans, h1]
        · refine ⟨_, _, [NavEvent.geocode, NavEvent.directions, NavEvent.persist],
            rfl, ?_, ?_⟩ <;> simp [htrans, h1]

/-- C4 witness: a non-English request whose translation service raises on
every call; the pipeline still reaches extraction and succeeds. -/
theorem translation_fault_is_soft_witness :
    translate_to_english translateFaultGateways "take me to Dhaka University".toList
      (some "bn".toList) = ("take me to Dhaka University".toList, none) ∧
    ∃ resp st' rest,
      navigate demoCfg translateFaultGateways "esp32-1".toList 23 90 none [1, 2, 3]
          (some demoCfg.api_key) 111 demoSt =
        .ok (resp, st',
          NavEvent.saveAudio :: NavEvent.transcribe :: NavEvent.translate ::
            NavEvent.extractPlace :: rest) ∧
      resp.transcript = some "take me to Dhaka University".toList ∧
      resp.detected_language = none :=
  translation_fault_is_soft demoCfg translateFaultGateways "esp32-1".toList
    23 90 none [1, 2, 3] 111 demoSt "gmaps-key".toList
    "take me to Dhaka University".toList (some "bn".toList)
    rfl rfl (by decide) rfl

/-- C8 counterexample: when geocoding finds nothing for "xyzzy123", the
response does carry `destination_place = "xyzzy123"` — the destination
fields are not all absent, refuting the claim as stated. -/
theorem geocode_failure_destination_counterexample :
    geoFailResp.success = false ∧ geoFailResp.request_id = 0 ∧
    geoFailResp.destination_place = some "xyzzy123".toList ∧
    geoFailResp.destination_place ≠ none := by
  refine ⟨rfl, rfl, rfl, ?_⟩
  intro h
  rw [show geoFailResp.destination_place = some "xyzzy123".toList from rfl] at h
  cases h

/-- C8 (amended): when the Geocoding Gateway returns no match for the
extracted place text, the response has success = false, request id = 0,
an error string ending in the attempted place text, destination latitude
and longitude absent — but the destination place field is populated with
the attempted place text (diagnostic context), not absent. -/
theorem geocode_failure_diagnostic
    (cfg : ServerConfig) (g : Gateways) (device_id : List Char) (lat lng : ℚ)
    (heading : Option ℚ) (audio : List Nat) (now : Nat) (st : NavState)
    (gk t p : List Char) (dl : Option (List Char))
    (hkey : cfg.gmaps_api_key = some gk)
    (htrans : transcribe_audio g audio = (some t, dl))
    (ht : t ≠ [])
    (hplace : extract_place_name (translate_to_english g t dl).1 = some p)
    (hp : p ≠ [])
    (hgeo : geocode_place g p gk = none) :
    ∃ st',
      navigate cfg g device_id lat lng heading audio (some cfg.api_key) now st =
        .ok ({ success := false, request_id := 0, transcript := some t,
               detected_language := (translate_to_english g t dl).2,
               destination_place := some p,
               destination_lat := none, destination_lng := none,
               error := some ("Could not find location for: ".toList ++ p) },
             st',
             [NavEvent.saveAudio, NavEvent.transcribe, NavEvent.translate,
              NavEvent.extractPlace, NavEvent.geocode]) ∧
      st'.store = st.store := by
  have hst : strTruthy (some t) = true := by
    cases t with
    | nil => exact absurd rfl ht
    | cons c cs => rfl
  have hsp : strTruthy (some p) = true := by
    cases p with
    | nil => exact absurd rfl hp
    | cons c cs => rfl
  simp only [navigate, hkey, ne_eq, not_true_eq_false, if_false, reduceIte]
  split
  · rename_i hcond
    rw [htrans] at hcond
    simp [hst] at hcond
  · split
    · rename_i hcond
      rw [htrans] at hcond
      simp only [Option.getD_some] at hcond
      rw [hplace] at hcond
      simp [hsp] at hcond
    · split
      · refine ⟨(save_audio_file st audio (navFilename device_id now)).2, ?_, ?_⟩
        · simp [htrans, hplace]
        · simp [save_audio_file]
      · rename_i geo heq
        rw [htrans] at heq
        simp only [Option.getD_some] at heq
        rw [hplace] at heq
        simp only [Option.getD_some] at heq
        rw [hgeo] at heq
        cases heq

/-- C8 witness: the theorem instantiated on the concrete "xyzzy123" run. -/
theorem geocode_failure_diagnostic_witness :
    ∃ st',
      navigate demoCfg geoFailGateways "esp32-1".toList 23 90 none [1, 2, 3]
          (some demoCfg.api_key) 111 demoSt =
        .ok ({ success := false, request_id := 0,
               transcript := some "take me to xyzzy123".toList,
               detected_language :=
                 (translate_to_english geoFailGateways "take me to xyzzy123".toList
                   (some "en".toList)).2,
               destination_place := some "xyzzy123".toList,
               destination_lat := none, destination_lng := none,
               error := some ("Could not find location for: ".toList ++ "xyzzy123".toList) },
             st',
             [NavEvent.saveAudio, NavEvent.transcribe, NavEvent.translate,
              NavEvent.extractPlace, NavEvent.geocode]) ∧
      st'.store = demoSt.store :=
  geocode_failure_diagnostic demoCfg geoFailGateways "esp32-1".toList 23 90
    none [1, 2, 3] 111 demoSt "gmaps-key".toList "take me to xyzzy123".toList
    "xyzzy123".toList (some "en".toList) rfl rfl (by decide) (by decide)
    (by decide) rfl

/-- A `dropWhile` over an append stops inside the left part when that part
contains a non-`p` element. -/
lemma dropWhile_append_of_any (p : Char → Bool) (a b : List Char)
    (h : ∃ c ∈ a, p c = false) :
    (a ++ b).dropWhile p = a.dropWhile p ++ b := by
  induction a with
  | nil => simp at h
  | cons x xs ih =>
    by_cases hx : p x = true
    · simp only [List.cons_append, List.dropWhile_cons, hx, if_true]
      apply ih
      obtain ⟨c, hc, hcp⟩ := h
      rcases List.mem_cons.mp hc with h' | hc'
      · subst h'
        rw [hx] at hcp
        cases hcp
      · exact ⟨c, hc', hcp⟩
    · rw [Bool.not_eq_true] at hx
      simp [List.dropWhile_cons, hx]

/-- A `dropWhile` over an append skips an all-`p` left part entirely. -/
lemma dropWhile_append_of_all (p : Char → Bool) (a b : List Char)
    (h : ∀ c ∈ a, p c = true) :
    (a ++ b).dropWhile p = b.dropWhile p := by
  induction a with
  | nil => simp
  | cons x xs ih =>
    simp only [List.cons_append, List.dropWhile_cons, h x (by simp), if_true]
    exact ih (fun c hc => h c (by simp [hc]))

/-- A `dropTrailingWhile` over an append acts only on the right part when
that part contains a non-`p` element. -/
lemma dropTrailingWhile_append (p : Char → Bool) (a X : List Char)
    (h : ∃ c ∈ X, p c = false) :
    dropTrailingWhile p (a ++ X) = a ++ dropTrailingWhile p X := by
  unfold dropTrailingWhile
  rw [List.reverse_append,
    dropWhile_append_of_any p X.reverse a.reverse
      (by obtain ⟨c, hc, hcp⟩ := h; exact ⟨c, List.mem_reverse.mpr hc, hcp⟩),
    List.reverse_append, List.reverse_reverse]

/-- A list is its trailing-trimmed part followed by an all-`p` suffix. -/
lemma dropTrailingWhile_decomp (p : Char → Bool) (l : List Char) :
    dropTrailingWhile p l ++ (l.reverse.takeWhile p).reverse = l ∧
    ∀ c ∈ (l.reverse.takeWhile p).reverse, p c = true := by
  constructor
  · unfold dropTrailingWhile
    rw [← List.reverse_append, List.takeWhile_append_dropWhile, List.reverse_reverse]
  · intro c hc
    rw [List.mem_reverse] at hc
    exact List.mem_takeWhile_imp hc

/-- The head of a `dropWhile` result never satisfies `p`. -/
lemma head_dropWhile_false (p : Char → Bool) (l : List Char) (y : Char)
    (ys : List Char) (h : l.dropWhile p = y :: ys) : p y = false := by
  induction l with
  | nil => cases h
  | cons x xs ih =>
    by_cases hx : p x = true
    · simp only [List.dropWhile_cons, hx, if_true] at h
      exact ih h
    · rw [Bool.not_eq_true] at hx
      simp only [List.dropWhile_cons, hx, Bool.false_eq_true, if_false] at h
      cases h
      exact hx

/-- A `dropWhile` keeps a witness of a non-`p` element. -/
lemma dropWhile_ne_nil (p : Char → Bool) (l : List Char)
    (h : ∃ c ∈ l, p c = false) : l.dropWhile p ≠ [] := by
  rw [Ne, List.dropWhile_eq_nil_iff]
  intro hall
  obtain ⟨c, hc, hcp⟩ := h
  rw [hall c hc] at hcp
  cases hcp

/-- Dropping as many elements as the `takeWhile` part is `dropWhile`. -/
lemma drop_takeWhile_length (p : Char → Bool) (l : List Char) :
    l.drop (l.takeWhile p).length = l.dropWhile p := by
  induction l with
  | nil => rfl
  | cons x xs ih =>
    by_cases hx : p x = true
    · simp only [List.takeWhile_cons, List.dropWhile_cons, hx, if_true,
        List.length_cons, List.drop_succ_cons]
      exact ih
    · rw [Bool.not_eq_true] at hx
      simp [List.takeWhile_cons, List.dropWhile_cons, hx]

/-- A `takeWhile (· != newline)` is the identity on newline-free text. -/
lemma takeWhile_no_newline (l : List Char) (h : '\n' ∉ l) :
    l.takeWhile (fun d => d != '\n') = l := by
  induction l with
  | nil => rfl
  | cons x xs ih =>
    have hx : (x != '\n') = true := by
      simp only [bne_iff_ne, ne_eq]
      intro he
      exact h (by simp [he])
    simp only [List.takeWhile_cons, hx, if_true]
    rw [ih (fun hm => h (by simp [hm]))]

/-- A non-`p` witness survives `dropTrailingWhile`. -/
lemma exists_mem_dropTrailingWhile (p : Char → Bool) (X : List Char)
    (h : ∃ c ∈ X, p c = false) :
    ∃ c ∈ dropTrailingWhile p X, p c = false := by
  obtain ⟨hdecomp, hall⟩ := dropTrailingWhile_decomp p X
  obtain ⟨c, hc, hcp⟩ := h
  rw [← hdecomp] at hc
  rcases List.mem_append.mp hc with h1 | h2
  · exact ⟨c, h1, hcp⟩
  · rw [hall c h2] at hcp
    cases hcp

/-- A `dropTrailingWhile` introduces no new elements. -/
lemma not_mem_dropTrailingWhile (p : Char → Bool) (X : List Char) (c : Char)
    (h : c ∉ X) : c ∉ dropTrailingWhile p X := by
  intro hc
  obtain ⟨hdecomp, _⟩ := dropTrailingWhile_decomp p X
  exact h (by rw [← hdecomp]; exact List.mem_append.mpr (Or.inl hc))

/-- A `dropWhile` introduces no new elements. -/
lemma not_mem_dropWhile (p : Char → Bool) (l : List Char) (c : Char)
    (h : c ∉ l) : c ∉ l.dropWhile p := by
  intro hc
  have hdecomp := List.takeWhile_append_dropWhile p l
  exact h (by rw [← hdecomp]; exact List.mem_append.mpr (Or.inr hc))

/-- A non-`p` witness survives `dropWhile`. -/
lemma exists_mem_dropWhile (p : Char → Bool) (l : List Char)
    (h : ∃ c ∈ l, p c = false) :
    ∃ c ∈ l.dropWhile p, p c = false := by
  obtain ⟨c, hc, hcp⟩ := h
  have hdecomp := List.takeWhile_append_dropWhile p l
  rw [← hdecomp] at hc
  rcases List.mem_append.mp hc with h1 | h2
  · rw [List.mem_takeWhile_imp h1] at hcp
    cases hcp
  · exact ⟨c, h2, hcp⟩

/-- The operation `dropWhile` is idempotent. -/
lemma dropWhile_idem (p : Char → Bool) (l : List Char) :
    (l.dropWhile p).dropWhile p = l.dropWhile p := by
  rcases hl : l.dropWhile p with _ | ⟨y, ys⟩
  · rfl
  · simp [List.dropWhile_cons, head_dropWhile_false p l y ys hl]

/-- The operation `dropTrailingWhile` is idempotent. -/
lemma dropTrailingWhile_idem (p : Char → Bool) (l : List Char) :
    dropTrailingWhile p (dropTrailingWhile p l) = dropTrailingWhile p l := by
  unfold dropTrailingWhile
  rw [List.reverse_reverse, dropWhile_idem]

/-- A list with a non-`p` head is untouched by `dropWhile`. -/
lemma dropWhile_eq_self_of_head (p : Char → Bool) (l : List Char)
    (h : ∀ y ys, l = y :: ys → p y = false) : l.dropWhile p = l := by
  cases l with
  | nil => rfl
  | cons y ys => simp [List.dropWhile_cons, h y ys rfl]

/-- The head of `dropTrailingWhile p l` is the head of `l`. -/
lemma head_dropTrailingWhile (p : Char → Bool) (l : List Char) (y : Char)
    (ys : List Char) (h : dropTrailingWhile p l = y :: ys) :
    ∃ zs, l = y :: zs := by
  obtain ⟨hdecomp, _⟩ := dropTrailingWhile_decomp p l
  rw [h] at hdecomp
  exact ⟨ys ++ (l.reverse.takeWhile p).reverse, hdecomp.symm⟩

/-- Trailing-trimming the leading-trimmed part gives a list `dropWhile`
leaves alone. -/
lemma dropWhile_dropTrailingWhile_dropWhile (p : Char → Bool) (X : List Char) :
    (dropTrailingWhile p (X.dropWhile p)).dropWhile p
      = dropTrailingWhile p (X.dropWhile p) := by
  apply dropWhile_eq_self_of_head
  intro y ys h
  obtain ⟨zs, hz⟩ := head_dropTrailingWhile p _ y ys h
  exact head_dropWhile_false p X y zs hz

/-- Leading- and trailing-trimming commute (`strip` is order-independent):
with a non-`p` element present, both orders give the core. -/
lemma dropWhile_dropTrailingWhile_comm (p : Char → Bool) (X : List Char)
    (h : ∃ c ∈ X, p c = false) :
    (dropTrailingWhile p X).dropWhile p = dropTrailingWhile p (X.dropWhile p) := by
  have hR : ∃ c ∈ X.dropWhile p, p c = false := exists_mem_dropWhile p X h
  have hX : X.takeWhile p ++ X.dropWhile p = X :=
    List.takeWhile_append_dropWhile p X
  calc (dropTrailingWhile p X).dropWhile p
      = (dropTrailingWhile p (X.takeWhile p ++ X.dropWhile p)).dropWhile p := by rw [hX]
    _ = (X.takeWhile p ++ dropTrailingWhile p (X.dropWhile p)).dropWhile p := by
        rw [dropTrailingWhile_append p _ _ hR]
    _ = (dropTrailingWhile p (X.dropWhile p)).dropWhile p := by
        rw [dropWhile_append_of_all p _ _ (fun c hc => List.mem_takeWhile_imp hc)]
    _ = dropTrailingWhile p (X.dropWhile p) :=
        dropWhile_dropTrailingWhile_dropWhile p X

/-- The function `pyStrip` is idempotent. -/
lemma pyStrip_idem (l : List Char) : pyStrip (pyStrip l) = pyStrip l := by
  unfold pyStrip
  rw [dropWhile_dropTrailingWhile_dropWhile pySpace l, dropTrailingWhile_idem]

/-- Applying `cleanPlace` of the stripped core equals `cleanPlace` of the raw
remainder. -/
lemma cleanPlace_core (X : List Char) (h : ∃ c ∈ X, pySpace c = false) :
    cleanPlace ((dropTrailingWhile pySpace X).dropWhile pySpace) = cleanPlace X := by
  unfold cleanPlace
  rw [dropWhile_dropTrailingWhile_comm pySpace X h]
  show stripTrailingPunct (pyStrip (pyStrip X)) = stripTrailingPunct (pyStrip X)
  rw [pyStrip_idem]

/-- One successful step of `backtrackCapture`: if the character after the
tried whitespace run exists and is not a newline, the capture is the
remainder up to the first newline. -/
lemma backtrackCapture_succ (rest : List Char) (k : Nat) (y : Char) (ys : List Char)
    (hd : rest.drop (k + 1) = y :: ys) (hy : (y == '\n') = false) :
    backtrackCapture rest (k + 1) =
      some ((y :: ys).takeWhile (fun d => d != '\n')) := by
  unfold backtrackCapture
  rw [hd]
  simp [hy]

/-- Matching `\s+(.+)` after the matched phrase: with one leading space, a later
non-whitespace character and no newline, the capture is exactly the text
after the whitespace run. -/
lemma matchSpacesRest_space_cons (X₁ : List Char)
    (hch : ∃ c ∈ X₁, pySpace c = false) (hnl : '\n' ∉ X₁) :
    matchSpacesRest (' ' :: X₁) = some (X₁.dropWhile pySpace) := by
  obtain ⟨y, ys, hY⟩ : ∃ y ys, X₁.dropWhile pySpace = y :: ys := by
    rcases hl : X₁.dropWhile pySpace with _ | ⟨y, ys⟩
    · exact absurd hl (dropWhile_ne_nil pySpace X₁ hch)
    · exact ⟨y, ys, rfl⟩
  have hy : pySpace y = false := head_dropWhile_false pySpace X₁ y ys hY
  have hyn : (y == '\n') = false := by
    apply beq_eq_false_iff_ne.mpr
    intro he
    subst he
    rw [show pySpace '\n' = true from rfl] at hy
    cases hy
  have hnlY : '\n' ∉ y :: ys := by
    rw [← hY]
    exact not_mem_dropWhile pySpace X₁ '\n' hnl
  have htk : ((' ' :: X₁).takeWhile pySpace).length = (X₁.takeWhile pySpace).length + 1 := by
    rw [show (' ' :: X₁).takeWhile pySpace = ' ' :: X₁.takeWhile pySpace from by
      simp [List.takeWhile_cons, show pySpace ' ' = true from rfl]]
    rfl
  have hdrop : (' ' :: X₁).drop ((X₁.takeWhile pySpace).length + 1) = y :: ys := by
    rw [List.drop_succ_cons, drop_takeWhile_length, hY]
  unfold matchSpacesRest
  rw [htk, backtrackCapture_succ (' ' :: X₁) (X₁.takeWhile pySpace).length y ys hdrop hyn,
    takeWhile_no_newline (y :: ys) hnlY, hY]

/-- A list is a prefix (in the `isPrefixOf` sense) of itself followed by
anything. -/
lemma isPrefixOf_self_append (p r : List Char) : p.isPrefixOf (p ++ r) = true := by
  induction p with
  | nil => cases r <;> rfl
  | cons x xs ih => simp [List.isPrefixOf, ih]

/-- The first phrase alternative wins when it matches. -/
lemma tryPhrasesAt_head (p : List Char) (ps : List (List Char)) (s cap : List Char)
    (hpre : p.isPrefixOf s = true)
    (hm : matchSpacesRest (s.drop p.length) = some cap) :
    tryPhrasesAt (p :: ps) s = some cap := by
  unfold tryPhrasesAt
  rw [if_pos hpre, hm]

/-- A match at the current position is the leftmost match. -/
lemma reSearch_here (phrases : List (List Char)) (c : Char) (t cap : List Char)
    (h : tryPhrasesAt phrases (c :: t) = some cap) :
    reSearch phrases (c :: t) = some cap := by
  unfold reSearch
  rw [h]

/-- Searching the first pattern over `"take me to " ++ X₁` (with `X₁`
trailing-stripped, containing a non-space character and no newline)
captures the text after the whitespace run. -/
lemma reSearch_patterns1_take_me_to (X₁ : List Char)
    (hch : ∃ c ∈ X₁, pySpace c = false) (hnl : '\n' ∉ X₁) :
    reSearch patterns1 ("take me to ".toList ++ X₁) = some (X₁.dropWhile pySpace) := by
  have hsplit : "take me to ".toList ++ X₁ = 't' :: ("ake me to ".toList ++ X₁) := rfl
  rw [hsplit]
  apply reSearch_here
  rw [← hsplit]
  have hs2 : "take me to ".toList ++ X₁ = "take me to".toList ++ (' ' :: X₁) := rfl
  rw [hs2]
  apply tryPhrasesAt_head
  · exact isPrefixOf_self_append _ _
  · rw [List.drop_left]
    exact matchSpacesRest_space_cons X₁ hch hnl

/-- C5 counterexample: the input "take me to Paris" yields "paris", not
"Paris" — the remainder is not returned verbatim but lowercased, because
`extract_place_name` matches over `text.lower()`. -/
theorem extract_take_me_to_counterexample :
    extract_place_name "take me to Paris".toList = some "paris".toList ∧
    "paris".toList ≠ "Paris".toList := by
  constructor
  · decide
  · decide

/-- C5 (amended): for an input that lowercases to `"take me to " ++ X`
(any casing, any trailing punctuation folded into `X`), provided `X`
contains a non-whitespace character and no newline, `extract_place_name`
returns the lowercased `X` stripped of surrounding whitespace and then of
trailing `? . ! ,` punctuation. -/
theorem extract_take_me_to_lowercases (t X : List Char)
    (hform : pyLower t = "take me to ".toList ++ X)
    (hch : ∃ c ∈ X, pySpace c = false)
    (hnl : '\n' ∉ X) :
    extract_place_name t = some (cleanPlace X) := by
  have hlen : (pyLower t).length = 11 + X.length := by
    rw [hform, List.length_append,
      show ("take me to ".toList).length = 11 from rfl]
  have hne : t.isEmpty = false := by
    cases t with
    | nil =>
      simp [pyLower] at hlen
      omega
    | cons _ _ => rfl
  have hch1 : ∃ c ∈ dropTrailingWhile pySpace X, pySpace c = false :=
    exists_mem_dropTrailingWhile pySpace X hch
  have hnl1 : '\n' ∉ dropTrailingWhile pySpace X :=
    not_mem_dropTrailingWhile pySpace X '\n' hnl
  have hstrip : pyStrip (pyLower t) =
      "take me to ".toList ++ dropTrailingWhile pySpace X := by
    rw [hform]
    unfold pyStrip
    rw [dropWhile_append_of_any pySpace "take me to ".toList X
        ⟨'t', by decide, by decide⟩,
      show ("take me to ".toList).dropWhile pySpace = "take me to ".toList from rfl]
    exact dropTrailingWhile_append pySpace _ X hch
  have hsearch : reSearch patterns1 (pyStrip (pyLower t)) =
      some ((dropTrailingWhile pySpace X).dropWhile pySpace) := by
    rw [hstrip]
    exact reSearch_patterns1_take_me_to _ hch1 hnl1
  have hloop : extractLoop patternGroups (pyStrip (pyLower t)) =
      some (cleanPlace ((dropTrailingWhile pySpace X).dropWhile pySpace)) := by
    show extractLoop (patterns1 :: [patterns2, patterns3]) (pyStrip (pyLower t)) = _
    unfold extractLoop
    rw [hsearch]
  unfold extract_place_name
  rw [if_neg (by simp [hne]), hloop]
  show some (cleanPlace ((dropTrailingWhile pySpace X).dropWhile pySpace))
    = some (cleanPlace X)
  rw [cleanPlace_core X hch]

/-- C5 witness: "Take Me To Paris?" (mixed casing, trailing punctuation)
extracts to "paris". -/
theorem extract_take_me_to_lowercases_witness :
    extract_place_name "Take Me To Paris?".toList = some (cleanPlace "paris?".toList) :=
  extract_take_me_to_lowercases "Take Me To Paris?".toList "paris?".toList
    (by decide) (by decide) (by decide)

/-- C6 counterexample: the returned place description can be the empty
string — for whitespace-only input (no pattern matches and the trimmed
fallback is empty) and for "take me to ?" (the captured remainder is
punctuation only) — refuting "never an empty string". -/
theorem extract_empty_result_counterexample :
    extract_place_name " ".toList = some [] ∧
    extract_place_name "take me to ?".toList = some [] := by
  constructor
  · decide
  · decide

/-- C6 (amended): `extract_place_name` returns none exactly on empty
input, and for non-empty input with no pattern match it returns the full
trimmed input verbatim; the returned description, however, may be the
empty string (e.g. whitespace-only input), contrary to the never-empty
guarantee. -/
theorem extract_none_iff_empty_fallback (t : List Char) :
    (extract_place_name t = none ↔ t = []) ∧
    (t ≠ [] → extractLoop patternGroups (pyStrip (pyLower t)) = none →
      extract_place_name t = some (pyStrip t)) := by
  constructor
  · constructor
    · intro h
      by_contra ht
      have hne : t.isEmpty = false := by
        cases t with
        | nil => exact absurd rfl ht
        | cons _ _ => rfl
      unfold extract_place_name at h
      rw [if_neg (by simp [hne])] at h
      split at h <;> cases h
    · intro h
      subst h
      rfl
  · intro ht hloop
    have hne : t.isEmpty = false := by
      cases t with
      | nil => exact absurd rfl ht
      | cons _ _ => rfl
    unfold extract_place_name
    rw [if_neg (by simp [hne]), hloop]

/-- C6 witness: for "Central Park" no pattern matches and the trimmed
input is returned verbatim (with its original casing). -/
theorem extract_none_iff_empty_fallback_witness :
    extract_place_name "Central Park".toList = some (pyStrip "Central Park".toList) :=
  (extract_none_iff_empty_fallback "Central Park".toList).2 (by decide) (by decide)

/-- The loop over pattern groups is first-match-wins: if group `i`
matches and all earlier groups fail, group `i` determines the result. -/
lemma extractLoop_first_match (gs : List (List (List Char))) (tl : List Char) :
    ∀ (i : Nat) (grp : List (List Char)) (cap : List Char),
      gs.get? i = some grp →
      reSearch grp tl = some cap →
      (∀ j grp', j < i → gs.get? j = some grp' → reSearch grp' tl = none) →
      extractLoop gs tl = some (cleanPlace cap) := by
  induction gs with
  | nil =>
    intro i grp cap hget _ _
    cases hget
  | cons g rest ih =>
    intro i grp cap hget hm hprev
    cases i with
    | zero =>
      simp only [List.get?] at hget
      cases hget
      unfold extractLoop
      rw [hm]
    | succ n =>
      have h0 : reSearch g tl = none := hprev 0 g (Nat.succ_pos n) rfl
      unfold extractLoop
      rw [h0]
      exact ih n grp cap hget hm
        (fun j grp' hj hg => hprev (j + 1) grp' (Nat.succ_lt_succ hj) hg)

/-- C7 counterexample: "please go to paris" extracts "paris" although no
phrase pattern is a prefix of the whole input ("go to" occurs only as an
interior substring); the claim's whole-input matching would instead fall
back to the full trimmed input. -/
theorem extract_interior_match_counterexample :
    extract_place_name "please go to paris".toList = some "paris".toList ∧
    "go to".toList.isPrefixOf "please go to paris".toList = false ∧
    "paris".toList ≠ "please go to paris".toList := by
  refine ⟨?_, ?_, ?_⟩
  · decide
  · decide
  · decide

/-- C7 (amended): the patterns are tried in their listed order, each
searched (case-insensitively, at every start position, leftmost match
first — not anchored to the whole input) over the lowercased stripped
text; the first pattern that matches anywhere determines the result. -/
theorem extract_first_pattern_wins (text : List Char) (i : Nat)
    (grp : List (List Char)) (cap : List Char)
    (ht : text ≠ [])
    (hget : patternGroups.get? i = some grp)
    (hmatch : reSearch grp (pyStrip (pyLower text)) = some cap)
    (hprev : ∀ j grp', j < i → patternGroups.get? j = some grp' →
      reSearch grp' (pyStrip (pyLower text)) = none) :
    extract_place_name text = some (cleanPlace cap) := by
  have hne : text.isEmpty = false := by
    cases text with
    | nil => exact absurd rfl ht
    | cons _ _ => rfl
  unfold extract_place_name
  rw [if_neg (by simp [hne]),
    extractLoop_first_match patternGroups (pyStrip (pyLower text)) i grp cap
      hget hmatch hprev]

/-- C7 witness: "how to reach dhaka" is matched by the second pattern
group after the first group fails, yielding "dhaka". -/
theorem extract_first_pattern_wins_witness :
    extract_place_name "how to reach dhaka".toList = some (cleanPlace "dhaka".toList) :=
  extract_first_pattern_wins "how to reach dhaka".toList 1 patterns2
    "dhaka".toList (by decide) rfl (by decide)
    (fun j grp' hj hg => by
      have hj0 : j = 0 := by omega
      subst hj0
      have : patterns1 = grp' := by
        injection hg
      subst this
      decide)
